import Mathlib

/-!
Shallow embedding of the blink-detection core of the wellness eye-tracker
repository, together with proofs about it.

Sources embedded:
* `src/old/config.py` — `Configuration` and its `__post_init__` validation.
* `src/app/eye_tracker.py` — `_euclidean_dist`, `_calculate_ear`,
  `_update_blink_detection`, the frame-skip scheduling and landmark-cache
  logic of `process_frame`, and the observer fan-out of
  `_notify_blink_detected` / `_notify_eye_data_updated`.
* `src/app/notification_manager.py` — `check_blink_rate_and_notify`,
  `_send_low_blink_notification`, and the five-minute cooldown.

Numeric conventions: Python floats are modelled as real numbers (`ℝ`) or, where
only ordered comparisons matter, as arbitrary linear orders instantiated at `ℚ`
for concrete evaluation.  The one place where IEEE non-finite values are
observable — `_calculate_ear` dividing by a zero horizontal eye width, which
numpy turns into `inf`/`nan` rather than an exception — is modelled with
`WithTop ℝ`, whose `⊤` stands for the non-finite float result; like `inf` and
`nan`, `⊤` is never `<` a finite threshold, which is exactly how the Python
comparison `avg_ear < EAR_THRESHOLD` behaves on those values.
-/

namespace Wellness

/-- Embedding of the `Configuration` dataclass of `src/old/config.py`
(the fields the core reads; floats as `ℚ`, Python ints as `ℤ`). -/
structure Configuration where
  EAR_THRESHOLD : ℚ
  CONSECUTIVE_FRAMES : ℤ
  MAX_FACES : ℤ
  MIN_DETECTION_CONFIDENCE : ℚ
  MIN_TRACKING_CONFIDENCE : ℚ
  MAX_FRAME_SKIP : ℤ
  MIN_BLINKS_PER_MINUTE : ℤ
  NOTIFICATION_CHECK_INTERVAL : ℤ
  LEFT_EYE_INDICES : List ℤ
  RIGHT_EYE_INDICES : List ℤ

/-- The dataclass defaults of `Configuration` in `src/old/config.py`. -/
def default_configuration : Configuration where
  EAR_THRESHOLD := 21 / 100
  CONSECUTIVE_FRAMES := 2
  MAX_FACES := 1
  MIN_DETECTION_CONFIDENCE := 1 / 2
  MIN_TRACKING_CONFIDENCE := 1 / 2
  MAX_FRAME_SKIP := 0
  MIN_BLINKS_PER_MINUTE := 15
  NOTIFICATION_CHECK_INTERVAL := 60000
  LEFT_EYE_INDICES := [33, 160, 158, 133, 153, 144]
  RIGHT_EYE_INDICES := [362, 385, 387, 263, 373, 380]

/-- Embedding of `Configuration.__post_init__`: the three range checks that the
source actually performs, in source order; a failed check raises `ValueError`
with the given message, modelled as `Except.error`. -/
def post_init (c : Configuration) : Except String Unit :=
  if 0 ≤ c.EAR_THRESHOLD ∧ c.EAR_THRESHOLD ≤ 1 then
    if 0 ≤ c.MIN_DETECTION_CONFIDENCE ∧ c.MIN_DETECTION_CONFIDENCE ≤ 1 then
      if 0 ≤ c.MIN_TRACKING_CONFIDENCE ∧ c.MIN_TRACKING_CONFIDENCE ≤ 1 then
        Except.ok ()
      else Except.error "MIN_TRACKING_CONFIDENCE must be between 0.0 and 1.0"
    else Except.error "MIN_DETECTION_CONFIDENCE must be between 0.0 and 1.0"
  else Except.error "EAR_THRESHOLD must be between 0.0 and 1.0"

/-- The blink-detector state of `EyeTracker`: `frame_counter` is the
consecutive-below-threshold counter (`self.frame_counter`), `blink_count` is
`self.data.blink_count`. -/
structure BlinkState where
  frame_counter : ℕ
  blink_count : ℕ

/-- Embedding of `EyeTracker._update_blink_detection` (lines 139–146 of
`src/app/eye_tracker.py`), evaluated on one fresh `avg_ear` sample `x`:
below threshold increments the consecutive counter; otherwise a blink is
counted (and a blink event emitted, the returned `Bool`) precisely when the
counter has reached `CONSECUTIVE_FRAMES`, and the counter is reset.  The
sample type is any linear order (`ℝ`, `WithTop ℝ`, or `ℚ` for evaluation). -/
def update_blink_detection {α : Type*} [LinearOrder α] (thr : α) (cf : ℤ)
    (s : BlinkState) (x : α) : BlinkState × Bool :=
  if x < thr then (⟨s.frame_counter + 1, s.blink_count⟩, false)
  else if cf ≤ (s.frame_counter : ℤ) then (⟨0, s.blink_count + 1⟩, true)
  else (⟨0, s.blink_count⟩, false)

/-- Feed a whole sequence of fresh `avg_ear` samples through
`_update_blink_detection`; returns the final detector state and the number of
blink events emitted. -/
def run_blink_detector {α : Type*} [LinearOrder α] (thr : α) (cf : ℤ)
    (s : BlinkState) : List α → BlinkState × ℕ
  | [] => (s, 0)
  | x :: xs =>
    let r := update_blink_detection thr cf s x
    let rest := run_blink_detector thr cf r.1 xs
    (rest.1, (if r.2 then 1 else 0) + rest.2)

/-- Written from the specification's words, not from the code: the lengths of
the maximal runs of consecutive strictly-below-threshold samples that are
closed, i.e. followed by a sample at or above the threshold.  The accumulator
`r` is the length of the run currently open; a run still open when the stream
ends is dropped.  `closed_below_runs thr 0 xs` lists the closed maximal runs of
`xs`. -/
def closed_below_runs {α : Type*} [LinearOrder α] (thr : α) : ℤ → List α → List ℤ
  | _, [] => []
  | r, x :: xs =>
    if x < thr then closed_below_runs thr (r + 1) xs
    else if 0 < r then r :: closed_below_runs thr 0 xs
    else closed_below_runs thr 0 xs

/-- Written from the specification's words: the number of maximal
strictly-below-threshold runs that are closed by an at-or-above-threshold
sample and whose length is at least `CONSECUTIVE_FRAMES` (run lengths as
integers, comparable with the int-typed `CONSECUTIVE_FRAMES`). -/
def qualifying_runs {α : Type*} [LinearOrder α] (thr : α) (cf : ℤ) (xs : List α) : ℕ :=
  ((closed_below_runs thr 0 xs).filter (fun k => decide (cf ≤ k))).length

/-- Embedding of the frame-skip decision of `EyeTracker.process_frame`
(lines 90–95): the counter is incremented, and when it has reached
`MAX_FRAME_SKIP` the frame is processed (provider invoked) and the counter
reset.  Returns (provider invoked?, new counter value). -/
def sched_step (m : ℤ) (c : ℕ) : Bool × ℕ :=
  if m ≤ (c + 1 : ℤ) then (true, 0) else (false, c + 1)

/-- The provider-invocation flags of the next `n` ticks of the Frame Scheduler,
starting from skip-counter value `c`. -/
def sched_flags (m : ℤ) : ℕ → ℕ → List Bool
  | _, 0 => []
  | c, n + 1 => (sched_step m c).1 :: sched_flags m (sched_step m c).2 n

/-- Embedding of `EyeTracker._euclidean_dist`: the Euclidean norm of the
difference of two integer pixel coordinates, as computed by
`np.linalg.norm(np.array(pt1) - np.array(pt2))`. -/
noncomputable def euclidean_dist (p q : ℤ × ℤ) : ℝ :=
  Real.sqrt (((p.1 - q.1 : ℤ) : ℝ) ^ 2 + ((p.2 - q.2 : ℤ) : ℝ) ^ 2)

/-- Embedding of `EyeTracker._calculate_ear` (lines 82–86): the real value of
`(A + B) / (2.0 * C)` with `A = dist(p1, p5)`, `B = dist(p2, p4)`,
`C = dist(p0, p3)`, the points indexed out of the landmark list. -/
noncomputable def calculate_ear (pts : List (ℤ × ℤ)) : ℝ :=
  (euclidean_dist (pts.getD 1 (0, 0)) (pts.getD 5 (0, 0))
      + euclidean_dist (pts.getD 2 (0, 0)) (pts.getD 4 (0, 0)))
    / (2 * euclidean_dist (pts.getD 0 (0, 0)) (pts.getD 3 (0, 0)))

/-- The float value `_calculate_ear` actually produces: when the horizontal
distance `C` is zero, numpy evaluates `(A + B) / 0.0` to `inf` or `nan`
(with a warning, not an exception); those non-finite results are modelled as
`⊤`.  Otherwise the result is the finite real `calculate_ear pts`. -/
noncomputable def calc_ear_float (pts : List (ℤ × ℤ)) : WithTop ℝ :=
  if euclidean_dist (pts.getD 0 (0, 0)) (pts.getD 3 (0, 0)) = 0 then ⊤
  else ((calculate_ear pts : ℝ) : WithTop ℝ)

/-- Written from the specification's words for the EAR contract: a pixel
coordinate as a point of the Euclidean plane `EuclideanSpace ℝ (Fin 2)`. -/
noncomputable def to_point (p : ℤ × ℤ) : EuclideanSpace ℝ (Fin 2) :=
  fun i => if i = 0 then (p.1 : ℝ) else (p.2 : ℝ)

/-- Written from the specification's words: the Euclidean distance between two
pixel coordinates, using Mathlib's metric on the Euclidean plane. -/
noncomputable def spec_euclidean_dist (p q : ℤ × ℤ) : ℝ :=
  dist (to_point p) (to_point q)

/-- The float average `(left_ear + right_ear) / 2.0` of `process_frame`
(line 118): non-finite whenever either summand is non-finite. -/
noncomputable def half_sum (a b : WithTop ℝ) : WithTop ℝ :=
  (a + b).map (fun x : ℝ => x / 2)

/-- The per-tracker mutable state touched by `EyeTracker.process_frame`: the
fields of the `EyeTrackingData` dataclass together with the tracker's private
`frame_counter` (consecutive below-threshold frames), `_frame_skip_counter`
and `_last_valid_landmarks` cache.  Ear fields use `WithTop ℝ` as in
`calc_ear_float`. -/
structure TrackerState where
  blink_count : ℕ
  frame_counter : ℕ
  left_ear : WithTop ℝ
  right_ear : WithTop ℝ
  avg_ear : WithTop ℝ
  left_eye_landmarks : Option (List (ℤ × ℤ))
  right_eye_landmarks : Option (List (ℤ × ℤ))
  frame_skip_counter : ℕ
  last_valid_landmarks : Option (List (ℤ × ℤ) × List (ℤ × ℤ))

/-- Embedding of one tick of `EyeTracker.process_frame` (lines 88–137).  The
Landmark Provider's answer for this frame is `det`: `some (left, right)` with
the per-eye landmark lists already extracted, or `none` for "no detection";
it is only consulted when the Frame Scheduler decides to process the frame.
Returns the new state and whether a blink event was emitted this tick
(`_notify_blink_detected` fired).  On a skipped tick only the skip counter
moves; on a processed no-detection tick the cached pair — when present — is
replayed into the overlay landmark fields only. -/
noncomputable def process_frame (cfg : Configuration) (s : TrackerState)
    (det : Option (List (ℤ × ℤ) × List (ℤ × ℤ))) : TrackerState × Bool :=
  if (sched_step cfg.MAX_FRAME_SKIP s.frame_skip_counter).1 then
    match det with
    | some lr =>
      let le := calc_ear_float lr.1
      let re := calc_ear_float lr.2
      let avg := half_sum le re
      let ub := update_blink_detection (((cfg.EAR_THRESHOLD : ℝ) : WithTop ℝ))
        cfg.CONSECUTIVE_FRAMES ⟨s.frame_counter, s.blink_count⟩ avg
      ({ blink_count := ub.1.blink_count
         frame_counter := ub.1.frame_counter
         left_ear := le
         right_ear := re
         avg_ear := avg
         left_eye_landmarks := some lr.1
         right_eye_landmarks := some lr.2
         frame_skip_counter := (sched_step cfg.MAX_FRAME_SKIP s.frame_skip_counter).2
         last_valid_landmarks := some lr }, ub.2)
    | none =>
      match s.last_valid_landmarks with
      | some lr =>
        ({ s with frame_skip_counter := (sched_step cfg.MAX_FRAME_SKIP s.frame_skip_counter).2
                  left_eye_landmarks := some lr.1
                  right_eye_landmarks := some lr.2 }, false)
      | none =>
        ({ s with frame_skip_counter := (sched_step cfg.MAX_FRAME_SKIP s.frame_skip_counter).2 },
          false)
  else
    ({ s with frame_skip_counter := (sched_step cfg.MAX_FRAME_SKIP s.frame_skip_counter).2 },
      false)

/-- The states reached after each of a sequence of `process_frame` ticks. -/
noncomputable def process_trace (cfg : Configuration) (s : TrackerState) :
    List (Option (List (ℤ × ℤ) × List (ℤ × ℤ))) → List TrackerState
  | [] => []
  | d :: ds =>
    (process_frame cfg s d).1 :: process_trace cfg (process_frame cfg s d).1 ds

/-- Embedding of the delivery loops of `_notify_blink_detected` and
`_notify_eye_data_updated` (lines 61–76): each subscriber callback is invoked
on the event in turn; a callback that raises (`Except.error`) is caught and
logged and the loop continues with the next subscriber.  The returned list
records, for every subscriber in order, whether its callback completed without
raising; the publisher itself never sees an exception (the function is total
and never returns an `Except.error`). -/
def notify_observers {α E : Type*} (event : α) :
    List (α → Except E Unit) → List Bool
  | [] => []
  | cb :: rest =>
    (match cb event with
      | Except.ok _ => true
      | Except.error _ => false) :: notify_observers event rest

/-- The state of `NotificationManager` (`src/app/notification_manager.py`):
`last_blink_count`, `last_check_time` and the optional
`last_notification_time`, times in seconds as rationals. -/
structure NotifState where
  last_blink_count : ℤ
  last_check_time : ℚ
  last_notification_time : Option ℚ

/-- Embedding of `NotificationManager._send_low_blink_notification`
(lines 37–58): return without sending while the previous successful alert is
less than `cooldown` ago; otherwise call the external alert sink, whose
success this tick is the environment input `sink_ok` (`plyer` failures are
caught and logged, leaving `last_notification_time` unchanged).  Returns the
new state and whether an alert was actually sent. -/
def send_low_blink_alert (cooldown : ℚ) (s : NotifState) (t : ℚ)
    (sink_ok : Bool) : NotifState × Bool :=
  match s.last_notification_time with
  | some lt =>
    if t - lt < cooldown then (s, false)
    else if sink_ok then ({ s with last_notification_time := some t }, true)
    else (s, false)
  | none =>
    if sink_ok then ({ s with last_notification_time := some t }, true)
    else (s, false)

/-- The hard-coded `notification_cooldown = timedelta(minutes=5)` of
`NotificationManager.__init__`, in seconds. -/
def notification_cooldown : ℚ := 300

/-- Embedding of `NotificationManager.check_blink_rate_and_notify`
(lines 18–35) at wall-clock time `t`: act only when `interval / 1000` seconds
have elapsed since the last window reset; then compute the window's
blinks-per-minute rate, attempt a low-rate alert when it is below
`min_bpm`, and reset the window. -/
def check_blink_rate_and_notify (interval : ℤ) (cooldown min_bpm : ℚ)
    (s : NotifState) (count : ℤ) (t : ℚ) (sink_ok : Bool) : NotifState × Bool :=
  let elapsed := t - s.last_check_time
  if (interval : ℚ) / 1000 ≤ elapsed then
    let rate := ((count - s.last_blink_count : ℤ) : ℚ) / elapsed * 60
    let r := if rate < min_bpm then send_low_blink_alert cooldown s t sink_ok
             else (s, false)
    ({ r.1 with last_blink_count := count, last_check_time := t }, r.2)
  else (s, false)

/-- The times at which alerts are actually raised when a sequence of
`check_blink_rate_and_notify` calls — each a (blink count, time, sink success)
triple — is run against the monitor. -/
def alert_times (interval : ℤ) (cooldown min_bpm : ℚ) (s : NotifState) :
    List (ℤ × ℚ × Bool) → List ℚ
  | [] => []
  | e :: es =>
    let r := check_blink_rate_and_notify interval cooldown min_bpm s e.1 e.2.1 e.2.2
    (if r.2 then [e.2.1] else []) ++ alert_times interval cooldown min_bpm r.1 es

/-! ## Blink detector: counting closed qualifying runs -/

/-- Generalisation of the run-counting refinement over the consecutive counter
`r` the detector starts in: the events emitted by `_update_blink_detection`
over a sample stream, and the increase of `blink_count`, both equal the number
of closed below-threshold runs (the open prefix counted as already `r` long)
of length at least `CONSECUTIVE_FRAMES`, provided `CONSECUTIVE_FRAMES ≥ 1`. -/
lemma run_detector_closed_runs {α : Type*} [LinearOrder α] (thr : α) (cf : ℤ)
    (hcf : 1 ≤ cf) :
    ∀ (xs : List α) (r : ℕ) (z : ℤ) (b : ℕ), z = (r : ℤ) →
      (run_blink_detector thr cf ⟨r, b⟩ xs).2
          = ((closed_below_runs thr z xs).filter (fun k => decide (cf ≤ k))).length
        ∧ (run_blink_detector thr cf ⟨r, b⟩ xs).1.blink_count
          = b + ((closed_below_runs thr z xs).filter (fun k => decide (cf ≤ k))).length := by
  intro xs
  induction xs with
  | nil => intro r z b hz; simp [run_blink_detector, closed_below_runs]
  | cons x xs ih =>
    intro r z b hz
    by_cases hx : x < thr
    · have h := ih (r + 1) (z + 1) b (by omega)
      simp only [run_blink_detector, update_blink_detection, if_pos hx,
        closed_below_runs]
      simpa using h
    · by_cases hc : cf ≤ (r : ℤ)
      · have hcz : cf ≤ z := by omega
        have hr : 0 < z := by omega
        have hdec : decide (cf ≤ z) = true := by simpa using hcz
        have h1 := (ih 0 0 (b + 1) rfl).1
        have h2 := (ih 0 0 (b + 1) rfl).2
        simp only [run_blink_detector, update_blink_detection, if_neg hx, if_pos hc,
          closed_below_runs, if_pos hr]
        simp [List.filter_cons, hdec] at h1 h2 ⊢
        constructor <;> omega
      · have hcz : ¬ cf ≤ z := by omega
        have hdec : decide (cf ≤ z) = false := by simpa using hcz
        have h1 := (ih 0 0 b rfl).1
        have h2 := (ih 0 0 b rfl).2
        by_cases hr : 0 < z
        · simp only [run_blink_detector, update_blink_detection, if_neg hx, if_neg hc,
            closed_below_runs, if_pos hr]
          simp [List.filter_cons, hdec] at h1 h2 ⊢
          constructor <;> omega
        · simp only [run_blink_detector, update_blink_detection, if_neg hx, if_neg hc,
            closed_below_runs, if_neg hr]
          simp at h1 h2 ⊢
          constructor <;> omega


/-- Claim C1, amended with the hypothesis `CONSECUTIVE_FRAMES ≥ 1` (the
configuration's default is 2): for any sequence of fresh `avg_ear` samples fed
to the blink detector starting with a zero consecutive counter, the number of
emitted blink events and the total increase of `blink_count` both equal the
number of maximal strictly-below-threshold runs of length at least
`CONSECUTIVE_FRAMES` that are closed by an at-or-above-threshold sample; a run
still open when the stream ends never counts. -/
theorem blink_events_count_qualifying_runs {α : Type*} [LinearOrder α]
    (thr : α) (cf : ℤ) (b : ℕ) (xs : List α) (hcf : 1 ≤ cf) :
    (run_blink_detector thr cf ⟨0, b⟩ xs).2 = qualifying_runs thr cf xs
      ∧ (run_blink_detector thr cf ⟨0, b⟩ xs).1.blink_count
          = b + qualifying_runs thr cf xs :=
  run_detector_closed_runs thr cf hcf xs 0 0 b rfl

/-- Witness for `blink_events_count_qualifying_runs`, at the specification's
own example: threshold `0.21`, `CONSECUTIVE_FRAMES = 2`, samples
`[0.25, 0.15, 0.10, 0.30, 0.05, 0.30]`. -/
theorem blink_events_count_qualifying_runs_witness :
    (1 : ℤ) ≤ 2
      ∧ (run_blink_detector ((21 : ℚ) / 100) 2 ⟨0, 0⟩
            [25 / 100, 15 / 100, 10 / 100, 30 / 100, 5 / 100, 30 / 100]).2
          = qualifying_runs ((21 : ℚ) / 100) 2
              [25 / 100, 15 / 100, 10 / 100, 30 / 100, 5 / 100, 30 / 100] :=
  ⟨by norm_num,
    (blink_events_count_qualifying_runs ((21 : ℚ) / 100) 2 0
      [25 / 100, 15 / 100, 10 / 100, 30 / 100, 5 / 100, 30 / 100] (by norm_num)).1⟩

/-- Counterexample to claim C1 as stated: with `CONSECUTIVE_FRAMES = 0` the
code emits a blink for a stream consisting of one single at-or-above-threshold
sample (threshold `1`, sample `2`), although that stream contains no
below-threshold run at all. -/
theorem blink_events_claim_counterexample :
    (run_blink_detector (1 : ℚ) 0 ⟨0, 0⟩ [2]).2 ≠ qualifying_runs (1 : ℚ) 0 [2] := by
  decide

/-- Claim C10: with `CONSECUTIVE_FRAMES = 0`, every fresh sample at or above
the threshold makes `_update_blink_detection` increment `blink_count` by one
and emit a blink event, from any detector state — in particular even when no
below-threshold sample has ever occurred (consecutive counter still 0). -/
theorem consecutive_frames_zero_blinks_on_open {α : Type*} [LinearOrder α]
    (thr x : α) (s : BlinkState) (h : thr ≤ x) :
    update_blink_detection thr 0 s x = (⟨0, s.blink_count + 1⟩, true) := by
  unfold update_blink_detection
  rw [if_neg (not_lt.mpr h), if_pos (Int.natCast_nonneg s.frame_counter)]

/-- Witness for `consecutive_frames_zero_blinks_on_open`: threshold `1`,
sample `2`, fresh detector state. -/
theorem consecutive_frames_zero_blinks_on_open_witness :
    (1 : ℚ) ≤ 2
      ∧ update_blink_detection (1 : ℚ) 0 ⟨0, 0⟩ 2 = (⟨0, 0 + 1⟩, true) :=
  ⟨by norm_num, consecutive_frames_zero_blinks_on_open 1 2 ⟨0, 0⟩ (by norm_num)⟩

/-! ## Configuration validation -/

/-- Counterexample to claim C6 as stated: a configuration whose
`CONSECUTIVE_FRAMES` is the out-of-range value `-1` (all other knobs at their
defaults) is accepted by `__post_init__` without any error, although the claim
requires it to be rejected. -/
theorem configuration_validation_counterexample :
    ({ default_configuration with CONSECUTIVE_FRAMES := -1 } :
        Configuration).CONSECUTIVE_FRAMES < 0
      ∧ post_init { default_configuration with CONSECUTIVE_FRAMES := -1 }
          = Except.ok () := by
  constructor
  · norm_num
  · unfold post_init default_configuration
    norm_num

/-- Claim C6, amended to what the code validates: construction succeeds exactly
when `EAR_THRESHOLD`, `MIN_DETECTION_CONFIDENCE` and `MIN_TRACKING_CONFIDENCE`
lie in `[0, 1]` — each violation raising a `ValueError` — and none of
`CONSECUTIVE_FRAMES`, `MAX_FRAME_SKIP`, `MIN_BLINKS_PER_MINUTE`, the check
interval, the cooldown or the landmark index lists is validated at all. -/
theorem configuration_validation_amended (c : Configuration) :
    post_init c = Except.ok ()
      ↔ (0 ≤ c.EAR_THRESHOLD ∧ c.EAR_THRESHOLD ≤ 1)
          ∧ (0 ≤ c.MIN_DETECTION_CONFIDENCE ∧ c.MIN_DETECTION_CONFIDENCE ≤ 1)
          ∧ (0 ≤ c.MIN_TRACKING_CONFIDENCE ∧ c.MIN_TRACKING_CONFIDENCE ≤ 1) := by
  unfold post_init
  split_ifs with h1 h2 h3 <;> simp_all

/-! ## Frame scheduler -/

/-- Number of provider invocations over the next `n` ticks from skip-counter
value `c`: it is the number of multiples of `MAX_FRAME_SKIP` the running
counter crosses, `(c + n) / m` in integer division. -/
lemma sched_flags_count (m : ℤ) (hm : 1 ≤ m) :
    ∀ (n c : ℕ), (c : ℤ) < m → (sched_flags m c n).count true = (c + n) / m.toNat := by
  intro n
  induction n with
  | zero =>
    intro c hc
    have hlt : c < m.toNat := by omega
    simp [sched_flags, Nat.div_eq_of_lt hlt]
  | succ n ih =>
    intro c hc
    by_cases h : m ≤ (c + 1 : ℤ)
    · have h0 : ((0 : ℕ) : ℤ) < m := by omega
      have hn := ih 0 h0
      simp only [sched_flags, sched_step, if_pos h]
      simp [List.count_cons, hn]
      rw [show c + (n + 1) = n + m.toNat from by omega,
        Nat.add_div_right _ (by omega)]
    · have hc1 : ((c + 1 : ℕ) : ℤ) < m := by push_cast; omega
      have hn := ih (c + 1) hc1
      simp only [sched_flags, sched_step, if_neg h]
      simp [List.count_cons, hn]
      congr 1
      omega

/-- Claim C7: when `MAX_FRAME_SKIP = m ≥ 1`, from any reachable skip-counter
value (the counter stays below `m`, as the second conjunct shows is preserved)
exactly one of any `m` consecutive ticks invokes the Landmark Provider; with
`MAX_FRAME_SKIP = 0` every tick invokes it.  The final conjunct ties the
scheduler model to `process_frame`: the tracker's skip counter after a tick is
exactly the scheduler's. -/
theorem frame_scheduler_period :
    (∀ m : ℤ, 1 ≤ m → ∀ c : ℕ, (c : ℤ) < m →
        (sched_flags m c m.toNat).count true = 1
          ∧ (((sched_step m c).2 : ℕ) : ℤ) < m)
      ∧ (∀ c : ℕ, (sched_step 0 c).1 = true)
      ∧ (∀ cfg s det, (process_frame cfg s det).1.frame_skip_counter
            = (sched_step cfg.MAX_FRAME_SKIP s.frame_skip_counter).2) := by
  refine ⟨fun m hm c hc => ⟨?_, ?_⟩, fun c => ?_, fun cfg s det => ?_⟩
  · rw [sched_flags_count m hm m.toNat c hc,
      Nat.add_div_right c (by omega), Nat.div_eq_of_lt (by omega)]
  · unfold sched_step
    split_ifs with h
    · simpa using hm
    · simpa using by omega
  · unfold sched_step
    rw [if_pos (by omega)]
  · unfold process_frame
    split
    · cases det with
      | some lr => rfl
      | none => cases hl : s.last_valid_landmarks <;> simp [hl]
    · rfl

/-- Witness for `frame_scheduler_period`: with `MAX_FRAME_SKIP = 3`, starting
from a fresh counter, exactly 1 of the next 3 ticks runs detection. -/
theorem frame_scheduler_period_witness :
    (1 : ℤ) ≤ 3 ∧ ((0 : ℕ) : ℤ) < 3
      ∧ (sched_flags 3 0 (3 : ℤ).toNat).count true = 1 :=
  ⟨by norm_num, by norm_num,
    (frame_scheduler_period.1 3 (by norm_num) 0 (by norm_num)).1⟩

/-! ## EAR calculator -/

/-- The code's per-coordinate distance formula agrees with the Euclidean
distance of the plane. -/
lemma spec_dist_eq (p q : ℤ × ℤ) : spec_euclidean_dist p q = euclidean_dist p q := by
  unfold spec_euclidean_dist euclidean_dist
  rw [EuclideanSpace.dist_eq, Fin.sum_univ_two]
  unfold to_point
  norm_num [Real.dist_eq, sq_abs]

/-- Claim C2: on a landmark set of exactly six points `p0 … p5`,
`_calculate_ear` returns `(dist(p1,p5) + dist(p2,p4)) / (2 * dist(p0,p3))`
with `dist` the Euclidean distance of the plane.  The source method reads only
its argument and writes no tracker state, so it is embedded as a pure function
of the landmark list. -/
theorem calculate_ear_formula (p0 p1 p2 p3 p4 p5 : ℤ × ℤ) :
    calculate_ear [p0, p1, p2, p3, p4, p5]
      = (spec_euclidean_dist p1 p5 + spec_euclidean_dist p2 p4)
          / (2 * spec_euclidean_dist p0 p3) := by
  rw [spec_dist_eq, spec_dist_eq, spec_dist_eq]
  rfl

/-! ## Degenerate geometry (zero horizontal eye width) -/

/-- Claim C5 shows a divergence between specification and code: on a landmark
set whose horizontal corners coincide (all six points equal here),
`_calculate_ear` divides by zero — numpy yields a non-finite float (`⊤` in the
model), no `DegenerateGeometry` error exists anywhere in the code — and
`process_frame` does NOT skip the blink update on that frame: the non-finite
average compares not-below-threshold, so the detector runs its eyes-open
branch, here completing a pending 2-frame run and incrementing `blink_count`
from 0 to 1. -/
theorem degenerate_geometry_runs_blink_update :
    calc_ear_float [(0 : ℤ × ℤ), 0, 0, 0, 0, 0] = ⊤
      ∧ (process_frame default_configuration
            ⟨0, 2, 0, 0, 0, none, none, 0, none⟩
            (some ([(0 : ℤ × ℤ), 0, 0, 0, 0, 0],
                   [(0 : ℤ × ℤ), 0, 0, 0, 0, 0]))).1.blink_count
          = 1 := by
  have hd : ∀ p : ℤ × ℤ, euclidean_dist p p = 0 := fun p => by
    simp [euclidean_dist]
  have hc : calc_ear_float [(0 : ℤ × ℤ), 0, 0, 0, 0, 0] = ⊤ := by
    unfold calc_ear_float
    simp [List.getD_cons_zero, List.getD_cons_succ, hd]
  refine ⟨hc, ?_⟩
  have hsched : sched_step default_configuration.MAX_FRAME_SKIP (0 : ℕ) = (true, 0) := by
    unfold sched_step
    rw [if_pos (by norm_num [default_configuration])]
  have havg : half_sum (⊤ : WithTop ℝ) ⊤ = ⊤ := by
    simp [half_sum]
  have hupd : update_blink_detection
      (((default_configuration.EAR_THRESHOLD : ℝ) : WithTop ℝ))
      default_configuration.CONSECUTIVE_FRAMES ⟨2, 0⟩ (⊤ : WithTop ℝ)
      = (⟨0, 1⟩, true) := by
    unfold update_blink_detection
    rw [if_neg not_top_lt, if_pos (by norm_num [default_configuration])]
  unfold process_frame
  simp [hsched, hc, havg, hupd]

/-! ## Skipped and no-detection ticks -/

/-- Claim C3: a tick the Frame Scheduler skips (the incremented skip counter
still below `MAX_FRAME_SKIP`) changes nothing but the skip counter — in
particular `blink_count`, the consecutive counter and the three EAR fields are
untouched and no blink event fires; a processed tick on which the provider
reports no detection leaves all of those untouched as well, refreshing only
the overlay landmark fields from the cache when the cache is non-empty and
nothing except the skip counter when it is empty; the blink detector is never
fed on such ticks. -/
theorem skipped_and_no_detection_ticks_preserve_blink_state
    (cfg : Configuration) (s : TrackerState)
    (det : Option (List (ℤ × ℤ) × List (ℤ × ℤ))) :
    ((s.frame_skip_counter + 1 : ℤ) < cfg.MAX_FRAME_SKIP →
        process_frame cfg s det
          = ({ s with frame_skip_counter := s.frame_skip_counter + 1 }, false))
      ∧ (cfg.MAX_FRAME_SKIP ≤ (s.frame_skip_counter + 1 : ℤ) → det = none →
          (∀ lr, s.last_valid_landmarks = some lr →
              process_frame cfg s det
                = ({ s with
                      frame_skip_counter := 0
                      left_eye_landmarks := some lr.1
                      right_eye_landmarks := some lr.2 }, false))
            ∧ (s.last_valid_landmarks = none →
                process_frame cfg s det
                  = ({ s with frame_skip_counter := 0 }, false))) := by
  constructor
  · intro h
    have hs : sched_step cfg.MAX_FRAME_SKIP s.frame_skip_counter
        = (false, s.frame_skip_counter + 1) := by
      unfold sched_step
      rw [if_neg (by omega)]
    unfold process_frame
    rw [hs]
    simp
  · intro hp hdet
    have hs : sched_step cfg.MAX_FRAME_SKIP s.frame_skip_counter = (true, 0) := by
      unfold sched_step
      rw [if_pos (by omega)]
    subst hdet
    constructor
    · intro lr hl
      unfold process_frame
      rw [hs, hl]
      rfl
    · intro hl
      unfold process_frame
      rw [hs, hl]
      rfl

/-- Witness for `skipped_and_no_detection_ticks_preserve_blink_state`: one
skipped tick (`MAX_FRAME_SKIP = 3`, fresh counter) and one processed
no-detection tick with a non-empty cache (default configuration). -/
theorem skipped_and_no_detection_ticks_preserve_blink_state_witness :
    (((0 : ℕ) : ℤ) + 1 < (3 : ℤ)
        ∧ process_frame { default_configuration with MAX_FRAME_SKIP := 3 }
            ⟨0, 0, 0, 0, 0, none, none, 0, none⟩ none
          = ({ (⟨0, 0, 0, 0, 0, none, none, 0, none⟩ : TrackerState) with
                frame_skip_counter := 0 + 1 }, false))
      ∧ process_frame default_configuration
            ⟨0, 0, 0, 0, 0, none, none, 0, some ([(1, 2)], [(3, 4)])⟩ none
          = ({ (⟨0, 0, 0, 0, 0, none, none, 0,
                  some ([(1, 2)], [(3, 4)])⟩ : TrackerState) with
                frame_skip_counter := 0
                left_eye_landmarks := some [(1, 2)]
                right_eye_landmarks := some [(3, 4)] }, false) :=
  ⟨⟨by norm_num,
      (skipped_and_no_detection_ticks_preserve_blink_state
          { default_configuration with MAX_FRAME_SKIP := 3 }
          ⟨0, 0, 0, 0, 0, none, none, 0, none⟩ none).1
        (by norm_num [default_configuration])⟩,
    ((skipped_and_no_detection_ticks_preserve_blink_state
          default_configuration
          ⟨0, 0, 0, 0, 0, none, none, 0, some ([(1, 2)], [(3, 4)])⟩ none).2
        (by norm_num [default_configuration]) rfl).1 ([(1, 2)], [(3, 4)]) rfl⟩

/-! ## Monotonicity of the blink counter -/

/-- One `_update_blink_detection` step never decreases `blink_count`. -/
lemma update_blink_mono {α : Type*} [LinearOrder α] (thr : α) (cf : ℤ)
    (s : BlinkState) (x : α) :
    s.blink_count ≤ (update_blink_detection thr cf s x).1.blink_count := by
  unfold update_blink_detection
  split_ifs <;> simp

/-- One `process_frame` tick never decreases `blink_count`. -/
lemma process_frame_blink_mono (cfg : Configuration) (s : TrackerState)
    (det : Option (List (ℤ × ℤ) × List (ℤ × ℤ))) :
    s.blink_count ≤ (process_frame cfg s det).1.blink_count := by
  unfold process_frame
  split
  · cases det with
    | some lr => simpa using update_blink_mono _ _ ⟨s.frame_counter, s.blink_count⟩ _
    | none => cases hl : s.last_valid_landmarks <;> simp [hl]
  · simp

/-- Claim C8: `blink_count` is monotonically non-decreasing over every
`process_frame` tick, and hence along any sequence of ticks the published
sequence of counts — what the Blink-Rate Monitor observes — is
non-decreasing. -/
theorem blink_count_monotone :
    (∀ cfg s det, s.blink_count ≤ (process_frame cfg s det).1.blink_count)
      ∧ ∀ cfg s dets,
          List.Chain' (· ≤ ·)
            ((s :: process_trace cfg s dets).map TrackerState.blink_count) := by
  refine ⟨process_frame_blink_mono, fun cfg s dets => ?_⟩
  induction dets generalizing s with
  | nil => simp [process_trace]
  | cons d ds ih =>
    simp only [process_trace, List.map_cons, List.chain'_cons]
    exact ⟨process_frame_blink_mono cfg s d,
      by simpa using ih (process_frame cfg s d).1⟩

/-! ## Observer hub -/

/-- Claim C9: when the hub publishes an event, a subscriber whose callback
raises is simply recorded as failed — the callbacks before and after it are
still invoked on the very same event, and the publisher receives the full
per-subscriber outcome list rather than an exception (note the return type of
`notify_observers` has no error case at all). -/
theorem observer_exception_isolated {α E : Type*} (event : α)
    (pre post : List (α → Except E Unit)) (bad : α → Except E Unit) (e : E)
    (hbad : bad event = Except.error e) :
    notify_observers event (pre ++ bad :: post)
      = notify_observers event pre ++ false :: notify_observers event post := by
  induction pre with
  | nil => simp [notify_observers, hbad]
  | cons c cs ih => simp [notify_observers, ih]

/-- Witness for `observer_exception_isolated`: a raising first subscriber and
a well-behaved second subscriber; the second still receives the blink event. -/
theorem observer_exception_isolated_witness :
    ((fun _ : ℕ => (Except.error () : Except Unit Unit)) 3 = Except.error ())
      ∧ notify_observers 3
            (([] : List (ℕ → Except Unit Unit))
              ++ (fun _ : ℕ => (Except.error () : Except Unit Unit))
                :: [fun _ : ℕ => (Except.ok () : Except Unit Unit)])
          = notify_observers 3 ([] : List (ℕ → Except Unit Unit))
              ++ false
                :: notify_observers 3 [fun _ : ℕ => (Except.ok () : Except Unit Unit)] :=
  ⟨rfl, observer_exception_isolated 3 []
    [fun _ : ℕ => (Except.ok () : Except Unit Unit)]
    (fun _ : ℕ => (Except.error () : Except Unit Unit)) () rfl⟩

/-! ## Blink-rate monitor: cooldown gating -/

/-- `_send_low_blink_notification` either leaves the state untouched and sends
nothing, or it sends, stamps `last_notification_time := t`, and — when a
previous alert time existed — that previous alert lies at least `cooldown` in
the past. -/
lemma send_low_blink_alert_cases (cooldown : ℚ) (s : NotifState) (t : ℚ)
    (ok : Bool) :
    send_low_blink_alert cooldown s t ok = (s, false)
      ∨ (send_low_blink_alert cooldown s t ok
            = ({ s with last_notification_time := some t }, true)
          ∧ ∀ lt, s.last_notification_time = some lt → lt + cooldown ≤ t) := by
  unfold send_low_blink_alert
  cases hl : s.last_notification_time with
  | none =>
    cases ok
    · left; rfl
    · right
      refine ⟨rfl, ?_⟩
      intro lt hlt
      simp at hlt
  | some lt0 =>
    by_cases hlt : t - lt0 < cooldown
    · left
      simp [hlt]
    · cases ok
      · left
        simp [hlt]
      · right
        refine ⟨by simp [hlt], ?_⟩
        intro lt1 h1
        injection h1 with h1
        subst h1
        linarith [not_lt.mp hlt]

/-- `check_blink_rate_and_notify` either does not alert and keeps
`last_notification_time`, or it alerts, stamps the alert time, and any
previous alert lies at least `cooldown` in the past. -/
lemma check_notify_cases (interval : ℤ) (cooldown min_bpm : ℚ) (s : NotifState)
    (count : ℤ) (t : ℚ) (ok : Bool) :
    ((check_blink_rate_and_notify interval cooldown min_bpm s count t ok).2 = false
        ∧ (check_blink_rate_and_notify interval cooldown min_bpm s count t ok).1.last_notification_time
            = s.last_notification_time)
      ∨ ((check_blink_rate_and_notify interval cooldown min_bpm s count t ok).2 = true
          ∧ (check_blink_rate_and_notify interval cooldown min_bpm s count t ok).1.last_notification_time
              = some t
          ∧ ∀ lt, s.last_notification_time = some lt → lt + cooldown ≤ t) := by
  simp only [check_blink_rate_and_notify]
  by_cases he : (interval : ℚ) / 1000 ≤ t - s.last_check_time
  · rw [if_pos he]
    by_cases hr : ((count - s.last_blink_count : ℤ) : ℚ) / (t - s.last_check_time) * 60
        < min_bpm
    · rw [if_pos hr]
      rcases send_low_blink_alert_cases cooldown s t ok with h | ⟨h, hsep⟩
      · left
        rw [h]
        exact ⟨rfl, rfl⟩
      · right
        rw [h]
        exact ⟨rfl, rfl, hsep⟩
    · rw [if_neg hr]
      left
      exact ⟨rfl, rfl⟩
  · rw [if_neg he]
    left
    exact ⟨rfl, rfl⟩

/-- When the window evaluates, the rate is below threshold, the previous alert
is at least `cooldown` old and the alert sink succeeds, an alert is sent. -/
lemma after_cooldown_alert (interval : ℤ) (cooldown min_bpm : ℚ) (s : NotifState)
    (count : ℤ) (t lt : ℚ)
    (he : (interval : ℚ) / 1000 ≤ t - s.last_check_time)
    (hr : ((count - s.last_blink_count : ℤ) : ℚ) / (t - s.last_check_time) * 60 < min_bpm)
    (hl : s.last_notification_time = some lt) (hcd : cooldown ≤ t - lt) :
    (check_blink_rate_and_notify interval cooldown min_bpm s count t true).2 = true := by
  simp only [check_blink_rate_and_notify]
  rw [if_pos he, if_pos hr]
  unfold send_low_blink_alert
  simp [hl, not_lt.mpr hcd]

/-- Over any sequence of monitor calls, the recorded alert times are pairwise
at least `cooldown` apart, and — when a last-alert timestamp is already set —
every future alert is at least `cooldown` after it. -/
lemma alert_times_spec (interval : ℤ) (cooldown min_bpm : ℚ) (hcd : 0 ≤ cooldown) :
    ∀ (es : List (ℤ × ℚ × Bool)) (s : NotifState),
      List.Pairwise (fun a b => a + cooldown ≤ b)
          (alert_times interval cooldown min_bpm s es)
        ∧ ∀ lt, s.last_notification_time = some lt →
            ∀ a ∈ alert_times interval cooldown min_bpm s es, lt + cooldown ≤ a := by
  intro es
  induction es with
  | nil => intro s; simp [alert_times]
  | cons e es ih =>
    intro s
    have h1 := (ih (check_blink_rate_and_notify interval cooldown min_bpm s e.1 e.2.1 e.2.2).1).1
    have h2 := (ih (check_blink_rate_and_notify interval cooldown min_bpm s e.1 e.2.1 e.2.2).1).2
    rcases check_notify_cases interval cooldown min_bpm s e.1 e.2.1 e.2.2 with
      ⟨hf, hlast⟩ | ⟨hf, hlast, hsep⟩
    · simp only [alert_times, hf]
      simp only [Bool.false_eq_true, if_false, List.nil_append]
      refine ⟨h1, ?_⟩
      intro lt hl a ha
      exact h2 lt (by rw [hlast, hl]) a ha
    · simp only [alert_times, hf]
      simp only [if_true, List.singleton_append]
      have hrest : ∀ a ∈ alert_times interval cooldown min_bpm
          (check_blink_rate_and_notify interval cooldown min_bpm s e.1 e.2.1 e.2.2).1 es,
          e.2.1 + cooldown ≤ a := fun a ha => h2 e.2.1 hlast a ha
      constructor
      · exact List.pairwise_cons.mpr ⟨hrest, h1⟩
      · intro lt hl a ha
        rcases List.mem_cons.mp ha with rfl | ha
        · exact hsep lt hl
        · have hb := hrest a ha
          have hc := hsep lt hl
          linarith

/-- Claim C4: (1) a below-threshold window evaluation while the previous alert
is less than `cooldown` old never raises a new alert, whatever the rate and
the sink outcome; (2) a below-threshold evaluation whose previous alert is at
least `cooldown` old (sink succeeding) does raise one; and hence (3) over any
call sequence two raised alerts are never less than `cooldown` apart. -/
theorem alert_cooldown_gating :
    (∀ (interval : ℤ) (cooldown min_bpm : ℚ) (s : NotifState) (count : ℤ)
        (t : ℚ) (ok : Bool) (lt : ℚ),
        s.last_notification_time = some lt → t - lt < cooldown →
        (check_blink_rate_and_notify interval cooldown min_bpm s count t ok).2 = false)
      ∧ (∀ (interval : ℤ) (cooldown min_bpm : ℚ) (s : NotifState) (count : ℤ)
          (t lt : ℚ),
          (interval : ℚ) / 1000 ≤ t - s.last_check_time →
          ((count - s.last_blink_count : ℤ) : ℚ) / (t - s.last_check_time) * 60 < min_bpm →
          s.last_notification_time = some lt → cooldown ≤ t - lt →
          (check_blink_rate_and_notify interval cooldown min_bpm s count t true).2 = true)
      ∧ (∀ (interval : ℤ) (cooldown min_bpm : ℚ), 0 ≤ cooldown →
          ∀ (s : NotifState) (es : List (ℤ × ℚ × Bool)),
            List.Pairwise (fun a b => a + cooldown ≤ b)
              (alert_times interval cooldown min_bpm s es)) := by
  refine ⟨?_, ?_, ?_⟩
  · intro interval cooldown min_bpm s count t ok lt hl hcd
    rcases check_notify_cases interval cooldown min_bpm s count t ok with
      ⟨hf, _⟩ | ⟨_, _, hsep⟩
    · exact hf
    · exact absurd (hsep lt hl) (by linarith)
  · exact fun interval cooldown min_bpm s count t lt he hr hl hcd =>
      after_cooldown_alert interval cooldown min_bpm s count t lt he hr hl hcd
  · exact fun interval cooldown min_bpm hcd s es =>
      (alert_times_spec interval cooldown min_bpm hcd es s).1

/-- Witness for `alert_cooldown_gating`, at the specification's own numbers:
check interval 60 s, threshold 15/min, cooldown 300 s.  A breach at `t = 120`
with an alert only 20 s old is suppressed; a breach at `t = 360` with the
alert 360 s old fires; alert times of a run are pairwise 300 s apart. -/
theorem alert_cooldown_gating_witness :
    ((⟨0, 0, some 100⟩ : NotifState).last_notification_time = some 100
        ∧ (120 : ℚ) - 100 < 300
        ∧ (check_blink_rate_and_notify 60000 300 15 ⟨0, 0, some 100⟩ 5 120 true).2
            = false)
      ∧ (check_blink_rate_and_notify 60000 300 15 ⟨0, 300, some 0⟩ 5 360 true).2
          = true
      ∧ List.Pairwise (fun a b => a + 300 ≤ b)
          (alert_times 60000 300 15 ⟨0, 0, none⟩ [(5, 60, true), (6, 90, true)]) :=
  ⟨⟨rfl, by norm_num,
      alert_cooldown_gating.1 60000 300 15 ⟨0, 0, some 100⟩ 5 120 true 100 rfl
        (by norm_num)⟩,
    alert_cooldown_gating.2.1 60000 300 15 ⟨0, 300, some 0⟩ 5 360 0
      (by norm_num) (by norm_num) rfl (by norm_num),
    alert_cooldown_gating.2.2 60000 300 15 (by norm_num) ⟨0, 0, none⟩
      [(5, 60, true), (6, 90, true)]⟩

end Wellness
